import Mathlib

/-!
# Verification of the elevation_manager Tauri backend core

Shallow embedding of the authentication / notification-polling core of the
`elevation_manager` repository (Rust, Tauri):

* `src-tauri/src/utils.rs` — bearer-token header construction
  (`get_auth_header_internal`);
* `src-tauri/src/auth/login.rs` — `AuthState` (a mutex-guarded
  `Option<String>` token) and the `login` command;
* `src-tauri/src/services/api_client.rs` — `ApiClient::handle_response`;
* `src-tauri/src/commands/notifications.rs` — the background
  notification-polling loop (`start_notification_polling`) and its
  backoff state machine, plus `stop_notification_polling`.

External effects (HTTP transport, serde_json parsing, Tauri event emission)
are passed in as explicit inputs: one poll-cycle of the loop becomes a pure
function from the cycle's environment (fetch results, parse oracles, emit
success flags) and the loop state to the next loop state and the cycle's
observable output.  Machine integers `i64`/`i32` are modelled as `Int`
(counters that stay non-negative as `Nat`); no arithmetic here approaches
the 64-bit range.
-/

namespace EM

/-- A model of a `serde_json::Value` (only carried opaquely as the
`action_data` payload of a notification; numbers modelled as `Int`). -/
inductive JsonValue where
  | null : JsonValue
  | bool (b : Bool) : JsonValue
  | num (n : Int) : JsonValue
  | str (s : String) : JsonValue
  | arr (elems : List JsonValue) : JsonValue
  | obj (fields : List (String × JsonValue)) : JsonValue
deriving Repr, Inhabited

/-- `NotificationCountResponse` (notifications.rs lines 21-25): `total`,
`unread` are `i64`. -/
structure NotificationCountResponse where
  total : Int
  unread : Int
deriving Repr, Inhabited

/-- `NotificationTarget` (notifications.rs lines 27-33). -/
structure NotificationTarget where
  id : Int
  notification_id : Int
  scope : String
  target_id : Int
deriving Repr, Inhabited

/-- `NotificationItem` (notifications.rs lines 35-48). -/
structure NotificationItem where
  id : Int
  title : String
  body : Option String
  type_field : String
  action_type : Option String
  action_data : Option JsonValue
  global : Bool
  dismissible : Bool
  created_at : String
  expires_at : Option String
deriving Repr, Inhabited

/-- `NotificationWithTargets` (notifications.rs lines 50-55). -/
structure NotificationWithTargets where
  notification : NotificationItem
  targets : List NotificationTarget
  dismissed : Bool
deriving Repr, Inhabited

/-- `NotificationResponse` (notifications.rs lines 57-64). -/
structure NotificationResponse where
  success : Bool
  status_code : Nat
  message : String
  timestamp : String
  data : List NotificationWithTargets
deriving Repr, Inhabited

/-- `CountResponse` (notifications.rs lines 66-73). -/
structure CountResponse where
  success : Bool
  status_code : Nat
  message : String
  timestamp : String
  data : NotificationCountResponse
deriving Repr, Inhabited

/-! ## Strings

Rust's `str::contains(pat)` is substring containment; we embed it
executably over the character lists. -/

/-- `leadMatch pat l` holds when `pat` occurs at the head of `l`
(Rust: `l.starts_with(pat)`). -/
def leadMatch : List Char → List Char → Bool
  | [], _ => true
  | _ :: _, [] => false
  | p :: ps, c :: cs => p == c && leadMatch ps cs

/-- `hasSubList pat l`: `pat` occurs contiguously somewhere in `l`. -/
def hasSubList (pat : List Char) : List Char → Bool
  | [] => leadMatch pat []
  | c :: cs => leadMatch pat (c :: cs) || hasSubList pat cs

/-- Rust `s.contains(pat)` for strings. -/
def strContains (s pat : String) : Bool :=
  hasSubList pat.data s.data

/-! ## Credential store (utils.rs, auth/login.rs)

`AuthState` holds `token: Mutex<Option<String>>`; the store's state is the
`Option String` inside the mutex.  Writes are single atomic assignments
(`*token_guard = v`, login.rs line 68, api_client.rs line 102). -/

/-- The error string produced by `get_auth_header_internal`
(utils.rs line 23). -/
def noTokenError : String := "No valid authentication token found. Please log in"

/-- The substring the polling loop tests for to recognise an
unauthenticated failure (notifications.rs line 442). -/
def noTokenMarker : String := "No valid authentication token found"

/-- `get_auth_header_internal` (utils.rs lines 18-25): `"Bearer <token>"`
when a token is present, the `noTokenError` failure otherwise. -/
def get_auth_header_internal (token : Option String) : Except String String :=
  match token with
  | some t => Except.ok ("Bearer " ++ t)
  | none => Except.error noTokenError

/-- A token-store write: the assignment `*token_guard = v` replacing the
current contents of `AuthState.token` (login.rs line 68; spec operation
`set(token: Option<string>)`). -/
def setToken (_state : Option String) (v : Option String) : Option String := v

/-! ## Polling loop (notifications.rs lines 328-452)

The spawned task's local state consists of the four mutable loop
variables (lines 329-332). -/

/-- The loop-local mutable state of the polling task
(notifications.rs lines 329-332): `last_count: i64`,
`error_count`, `backoff_seconds`, `consecutive_success`. -/
structure PollState where
  last_count : Int
  error_count : Nat
  backoff_seconds : Nat
  consecutive_success : Nat
deriving Repr, Inhabited, DecidableEq

/-- Initial values of the loop variables (notifications.rs lines 329-332). -/
def initialPollState : PollState :=
  { last_count := 0, error_count := 0, backoff_seconds := 10,
    consecutive_success := 0 }

/-- The environment one iteration of the loop interacts with: the token
check, the two HTTP fetch results (`Except.error` = the `Err(String)` of
the internal helpers, covering transport and non-2xx remote failures), the
two `serde_json::from_str` parses as oracles, and whether
`window.emit("notification_count_updated", _)` succeeds. -/
structure CycleEnv where
  tokenPresent : Bool
  countResult : Except String String
  parseCount : String → Option CountResponse
  notifResult : Except String String
  parseNotifs : String → Option NotificationResponse
  emitCountOk : Bool

/-- The observable effects of one loop iteration: the seconds slept at the
iteration's suspension point, the `notification_count_updated` payload (if
the emit succeeded), the notifications surfaced individually (each gets one
system notification and one `new_notification` event, lines 382-409),
whether the iteration was a backoff round, and the value of `error_count`
just before the success path's unconditional reset (line 426). -/
structure CycleOutput where
  sleepSeconds : Nat
  countEvent : Option Int
  surfaced : List NotificationWithTargets
  backedOff : Bool
  preResetErrors : Nat
deriving Repr, Inhabited

/-- Control-flow of the infinite `loop { ... }`: every iteration path in
the source ends in `continue` or falls through to the next iteration
(`LoopControl.next`); `LoopControl.exit` would model a `break`/`return`,
which the source does not contain. -/
inductive LoopControl where
  | next (s : PollState) (out : CycleOutput) : LoopControl
  | exit : LoopControl
deriving Inhabited

/-- One iteration of the polling loop body (notifications.rs lines
334-451), as a function of the iteration's environment and the loop
state.  Branches, in source order:
1. no token → sleep 10 s, `continue` (lines 336-343);
2. `error_count > 5` → sleep `backoff_seconds`, double it capped at 300,
   zero `error_count`, `continue` (lines 346-354);
3. fetch the count; on parse success emit the count event (a failed emit
   increments `error_count`), surface up to
   `(unread - last_count) as usize` notifications when
   `unread > last_count && last_count > 0`, then unconditionally set
   `last_count = unread`, reset `error_count = 0`, bump
   `consecutive_success` and reset the backoff after 3 successes
   (lines 357-434); on count parse failure or on a fetch error not
   containing the unauthenticated marker, increment `error_count`
   (lines 435-446); finally sleep 30 s (line 450). -/
def pollCycle (env : CycleEnv) (s : PollState) : LoopControl :=
  if env.tokenPresent = false then
    LoopControl.next s
      { sleepSeconds := 10, countEvent := none, surfaced := [],
        backedOff := false, preResetErrors := s.error_count }
  else if s.error_count > 5 then
    LoopControl.next
      { s with backoff_seconds := min (s.backoff_seconds * 2) 300,
               error_count := 0 }
      { sleepSeconds := s.backoff_seconds, countEvent := none,
        surfaced := [], backedOff := true, preResetErrors := 0 }
  else
    match env.countResult with
    | Except.ok count_json =>
      match env.parseCount count_json with
      | some count_resp =>
        let unread_count := count_resp.data.unread
        let ec1 := if env.emitCountOk then s.error_count else s.error_count + 1
        let inner : Nat × List NotificationWithTargets :=
          if unread_count > s.last_count ∧ s.last_count > 0 then
            match env.notifResult with
            | Except.ok notif_json =>
              match env.parseNotifs notif_json with
              | some notif_resp =>
                let added := (unread_count - s.last_count).toNat
                (ec1, notif_resp.data.take (min added notif_resp.data.length))
              | none => (ec1 + 1, [])
            | Except.error _ => (ec1 + 1, [])
          else (ec1, [])
        let cs := s.consecutive_success + 1
        let s' :=
          if cs ≥ 3 then
            { s with last_count := unread_count, error_count := 0,
                     consecutive_success := 0, backoff_seconds := 10 }
          else
            { s with last_count := unread_count, error_count := 0,
                     consecutive_success := cs }
        LoopControl.next s'
          { sleepSeconds := 30,
            countEvent := if env.emitCountOk then some unread_count else none,
            surfaced := inner.2, backedOff := false,
            preResetErrors := inner.1 }
      | none =>
        LoopControl.next { s with error_count := s.error_count + 1 }
          { sleepSeconds := 30, countEvent := none, surfaced := [],
            backedOff := false, preResetErrors := s.error_count + 1 }
    | Except.error e =>
      if strContains e noTokenMarker then
        LoopControl.next s
          { sleepSeconds := 30, countEvent := none, surfaced := [],
            backedOff := false, preResetErrors := s.error_count }
      else
        LoopControl.next { s with error_count := s.error_count + 1 }
          { sleepSeconds := 30, countEvent := none, surfaced := [],
            backedOff := false, preResetErrors := s.error_count + 1 }

/-- The state and output of one iteration (`pollCycle` never exits, so the
`exit` case is an unreachable default). -/
def runCycle (env : CycleEnv) (s : PollState) : PollState × CycleOutput :=
  match pollCycle env s with
  | LoopControl.next s' out => (s', out)
  | LoopControl.exit => (s, default)

/-! ## Poll lifecycle controller (notifications.rs lines 303-474)

`PollingState.task_handle : Mutex<Option<JoinHandle<()>>>`.  We model the
mutex contents as an `Option Nat` (a task identifier); the boolean in the
results records whether a task was spawned (for `start`) / aborted (for
`stop`). -/

/-- `start_notification_polling` (notifications.rs lines 309-458) as a
transition on the handle slot: if a handle is already stored, return `Ok`
without spawning (lines 319-322); otherwise spawn a task and store its
handle (lines 328, 455).  Result: (command result, new handle slot,
whether a task was spawned). -/
def start_notification_polling (handle : Option Nat) (freshTask : Nat) :
    Except String Unit × Option Nat × Bool :=
  match handle with
  | some h => (Except.ok (), some h, false)
  | none => (Except.ok (), some freshTask, true)

/-- `stop_notification_polling` (notifications.rs lines 462-474): `take`
the handle; abort it when present; return `Ok` in every case.  Result:
(command result, new handle slot, whether a task was aborted). -/
def stop_notification_polling (handle : Option Nat) :
    Except String Unit × Option Nat × Bool :=
  match handle with
  | some _ => (Except.ok (), none, true)
  | none => (Except.ok (), none, false)

/-! ## HTTP request gateway (services/api_client.rs) -/

/-- `reqwest::StatusCode::is_success`: status in `200..=299`. -/
def is_success (status : Nat) : Bool :=
  200 ≤ status && status < 300

/-- `ApiClient::handle_response` (api_client.rs lines 163-177), as a
function of the HTTP status and the result of reading the body text:
a body-read failure maps to an error; otherwise 2xx yields `Ok` with the
raw body and non-2xx yields `Err(response_text)` — the body string alone
(the status is logged at line 174 but not part of the returned error). -/
def handle_response (status : Nat) (bodyRead : Except String String) :
    Except String String :=
  match bodyRead with
  | Except.error e => Except.error ("Failed to read response: " ++ e)
  | Except.ok response_text =>
    if is_success status then Except.ok response_text
    else Except.error response_text

/-! ## Login (auth/login.rs lines 33-81) -/

/-- `AuthResponse` (login.rs lines 26-30). -/
structure AuthResponse where
  token : String
  role : String
deriving Repr, Inhabited

/-- The environment of one `login` call: the network send result (error
message, or HTTP status with response body) and the two serde parses as
oracles (`AuthResponse` on the success path, the `"message"` field of a
JSON error body on the failure path, lines 73-76). -/
structure LoginEnv where
  netResult : Except String (Nat × String)
  parseAuth : String → Option AuthResponse
  parseMsg : String → Option String

/-- `login` (login.rs lines 33-81) as a function of the call environment
and the stored token, returning the command result and the token
afterwards.  The token is written only at line 68, after a success status
whose body parsed as `AuthResponse`; every error path leaves it alone. -/
def login (env : LoginEnv) (token : Option String) :
    Except String (String × String) × Option String :=
  match env.netResult with
  | Except.error e => (Except.error ("Network error: " ++ e), token)
  | Except.ok (status, response_text) =>
    if is_success status then
      match env.parseAuth response_text with
      | none => (Except.error "JSON parsing error", token)
      | some body => (Except.ok (body.token, body.role), some body.token)
    else
      let error_message := (env.parseMsg response_text).getD "Unknown error"
      (Except.error error_message, token)

/-! ## Concrete sample data (used by witnesses and counterexamples) -/

/-- A concrete notification item. -/
def sampleItem : NotificationItem :=
  { id := 1, title := "t", body := none, type_field := "info",
    action_type := none, action_data := none, global := false,
    dismissible := true, created_at := "2025-01-01", expires_at := none }

/-- A concrete notification with targets. -/
def sampleNWT : NotificationWithTargets :=
  { notification := sampleItem, targets := [], dismissed := false }

/-- A count response with `unread = u`. -/
def countRespOf (u : Int) : CountResponse :=
  { success := true, status_code := 200, message := "", timestamp := "",
    data := { total := u, unread := u } }

/-- A notification-list response with the given items. -/
def notifRespOf (items : List NotificationWithTargets) : NotificationResponse :=
  { success := true, status_code := 200, message := "", timestamp := "",
    data := items }

/-- Environment of a fully successful cycle: count fetch and parse yield
`unread = u`, list fetch and parse yield `items`, count emit succeeds. -/
def okEnv (u : Int) (items : List NotificationWithTargets) : CycleEnv :=
  { tokenPresent := true, countResult := Except.ok "countBody",
    parseCount := fun _ => some (countRespOf u),
    notifResult := Except.ok "notifBody",
    parseNotifs := fun _ => some (notifRespOf items),
    emitCountOk := true }

/-- Environment where the count succeeds with `unread = u` but the
notification-list body fails to parse. -/
def listParseFailEnv (u : Int) : CycleEnv :=
  { okEnv u [] with parseNotifs := fun _ => none }

/-- Environment where the count body fails to parse. -/
def countParseFailEnv : CycleEnv :=
  { okEnv 0 [] with parseCount := fun _ => none }

/-- Environment where the count fetch itself fails with message `e`. -/
def fetchErrEnv (e : String) : CycleEnv :=
  { okEnv 0 [] with countResult := Except.error e }

/-- A poll state with the given cursor and counters. -/
def stateAt (l : Int) (ec b cs : Nat) : PollState :=
  { last_count := l, error_count := ec, backoff_seconds := b,
    consecutive_success := cs }

/-! ## Theorems -/

/-- The final token stored by a sequence of writes is the last written
value (each write is a whole-value assignment). -/
lemma foldl_setToken_eq_getLast (init : Option String)
    (ops : List (Option String)) :
    ops.foldl setToken init = (ops.getLast?).getD init := by
  induction ops generalizing init with
  | nil => rfl
  | cons a as ih =>
    cases as with
    | nil => simp [setToken]
    | cons b bs =>
      rw [List.foldl_cons, ih, List.getLast?_cons_cons]
      rcases h : (b :: bs).getLast? with _ | x
      · exact absurd h (by simp)
      · rfl

/-- C5: for every sequence of token writes interleaved with header
computations, `get_auth_header_internal` on the resulting store fails with
the `Unauthenticated` error iff the most recently completed write stored
`none`, and when the last write stored token `t` it returns exactly
`"Bearer t"`. -/
theorem credential_header_spec (init : Option String)
    (ops : List (Option String)) (hne : ops ≠ []) :
    (get_auth_header_internal (ops.foldl setToken init) =
        Except.error noTokenError ↔ ops.getLast? = some none) ∧
    (∀ t, ops.getLast? = some (some t) →
      get_auth_header_internal (ops.foldl setToken init) =
        Except.ok ("Bearer " ++ t)) := by
  have hsome : (ops.getLast?).isSome := by
    rcases List.exists_cons_of_ne_nil hne with ⟨a, as, rfl⟩
    cases as with
    | nil => simp
    | cons b bs => simp [List.getLast?_cons_cons]
  rcases hx : ops.getLast? with _ | x
  · rw [hx] at hsome; exact absurd hsome (by simp)
  · rw [foldl_setToken_eq_getLast, hx]
    cases x with
    | none => simp [get_auth_header_internal]
    | some t => simp [get_auth_header_internal]

/-- Witness for C5: after writes `[some "a", none, some "tok"]` the header
is `"Bearer tok"`; after `[some "a", none]` it is the `Unauthenticated`
error. -/
theorem credential_header_spec_witness :
    get_auth_header_internal ([some "a", none, some "tok"].foldl setToken none) =
        Except.ok ("Bearer " ++ "tok") ∧
    get_auth_header_internal ([some "a", none].foldl setToken none) =
        Except.error noTokenError :=
  ⟨(credential_header_spec none [some "a", none, some "tok"] (by simp)).2
      "tok" rfl,
   (credential_header_spec none [some "a", none] (by simp)).1.mpr rfl⟩

/-- C6: `start_notification_polling` is idempotent — with a stored handle
it returns success, keeps the handle, and spawns nothing, so starting
twice leaves exactly one task; `stop_notification_polling` returns success
whether or not a task exists, aborting and clearing the handle when one
does and acting as a no-op otherwise. -/
theorem polling_lifecycle_idempotent :
    ∀ (h0 freshTask g : Nat),
      start_notification_polling (some h0) freshTask =
        (Except.ok (), some h0, false) ∧
      start_notification_polling none freshTask =
        (Except.ok (), some freshTask, true) ∧
      start_notification_polling
          (start_notification_polling none freshTask).2.1 g =
        (Except.ok (), some freshTask, false) ∧
      stop_notification_polling (some h0) = (Except.ok (), none, true) ∧
      stop_notification_polling none = (Except.ok (), none, false) := by
  intro h0 freshTask g
  exact ⟨rfl, rfl, rfl, rfl, rfl⟩

/-- C7 counterexample: `handle_response` maps a 404 and a 500 with the same
body to the very same error value `Err(body)` — the returned error is only
the response body, so it cannot carry the HTTP status. -/
theorem remote_error_lacks_status :
    handle_response 404 (Except.ok "oops") = Except.error "oops" ∧
    handle_response 500 (Except.ok "oops") = Except.error "oops" ∧
    handle_response 404 (Except.ok "oops") =
      handle_response 500 (Except.ok "oops") :=
  ⟨rfl, rfl, rfl⟩

/-- C7 (amended): a 2xx status yields success whose payload is the raw
response body, and a non-2xx status yields an error carrying the raw
response body only. -/
theorem handle_response_classification (status : Nat) (text : String) :
    (is_success status = true →
      handle_response status (Except.ok text) = Except.ok text) ∧
    (is_success status = false →
      handle_response status (Except.ok text) = Except.error text) := by
  constructor <;> intro h <;> simp [handle_response, h]

/-- Witness for C7's amended theorem at statuses 200 and 404. -/
theorem handle_response_classification_witness :
    handle_response 200 (Except.ok "b") = Except.ok "b" ∧
    handle_response 404 (Except.ok "x") = Except.error "x" :=
  ⟨(handle_response_classification 200 "b").1 (by decide),
   (handle_response_classification 404 "x").2 (by decide)⟩

/-- C8: the polling loop never terminates of its own accord — every
iteration, whatever the cycle environment (success, transport or remote
failure, parse failure, missing token), continues to a next iteration;
only `stop_notification_polling`'s abort ends the task. -/
theorem poll_loop_never_exits :
    (∀ (env : CycleEnv) (s : PollState),
      ∃ s' out, pollCycle env s = LoopControl.next s' out) ∧
    (∀ h : Nat,
      stop_notification_polling (some h) = (Except.ok (), none, true)) := by
  constructor
  · intro env s
    unfold pollCycle
    repeat' split
    all_goals exact ⟨_, _, rfl⟩
  · intro h; rfl

/-- C10: if `login` returns an error — network failure, non-2xx status, or
JSON parse failure of a success-status body — the stored token is
unchanged; it is mutated only after a success-status response parsed. -/
theorem login_error_preserves_token (env : LoginEnv) (tok : Option String)
    (e : String) (h : (login env tok).1 = Except.error e) :
    (login env tok).2 = tok := by
  rcases hn : env.netResult with e' | ⟨st, body⟩
  · simp [login, hn]
  · by_cases hs : is_success st = true
    · rcases hp : env.parseAuth body with _ | a
      · simp [login, hn, hs, hp]
      · have hok : (login env tok).1 = Except.ok (a.token, a.role) := by
          simp [login, hn, hs, hp]
        rw [h] at hok
        exact absurd hok (by simp)
    · simp [login, hn, hs]

/-- Witness for C10: a network failure leaves the stored token `"tok"` in
place. -/
theorem login_error_preserves_token_witness :
    (login
        { netResult := Except.error "connexion",
          parseAuth := fun _ => none, parseMsg := fun _ => none }
        (some "tok")).2 = some "tok" :=
  login_error_preserves_token _ _ ("Network error: " ++ "connexion") rfl

/-- C1: in a cycle where count fetch and parse succeed with unread `C` and
cursor `L`, and the list fetch and parse succeed with `N` items: if
`C > L > 0` exactly `min (C - L) N` notifications are surfaced
individually, and if `L = 0` none are (only the count event is emitted). -/
theorem delta_bounded_surfacing (env : CycleEnv) (s : PollState)
    (cj nj : String) (cr : CountResponse) (nr : NotificationResponse)
    (hTok : env.tokenPresent = true) (hEc : s.error_count ≤ 5)
    (hCount : env.countResult = Except.ok cj)
    (hParse : env.parseCount cj = some cr)
    (hNotif : env.notifResult = Except.ok nj)
    (hNParse : env.parseNotifs nj = some nr) :
    (cr.data.unread > s.last_count ∧ s.last_count > 0 →
      (runCycle env s).2.surfaced.length
        = min (cr.data.unread - s.last_count).toNat nr.data.length) ∧
    (s.last_count = 0 →
      (runCycle env s).2.surfaced = [] ∧
      (env.emitCountOk = true →
        (runCycle env s).2.countEvent = some cr.data.unread)) := by
  have hEc' : ¬ s.error_count > 5 := by omega
  constructor
  · intro hgt
    simp [runCycle, pollCycle, hTok, hEc', hCount, hParse, hNotif, hNParse,
      hgt, List.length_take, Nat.min_assoc]
  · intro h0
    have hno : ¬ (cr.data.unread > s.last_count ∧ s.last_count > 0) := by
      rintro ⟨_, hpos⟩
      rw [h0] at hpos
      exact absurd hpos (by omega)
    refine ⟨?_, ?_⟩
    · simp [runCycle, pollCycle, hTok, hEc', hCount, hParse, hno]
    · intro hemit
      simp [runCycle, pollCycle, hTok, hEc', hCount, hParse, hno, hemit]

/-- Witness for C1: with `L = 1`, `C = 3`, `N = 1`, one notification is
surfaced (`min 2 1`); with `L = 0`, `C = 7`, nothing is surfaced and only
the count event fires. -/
theorem delta_bounded_surfacing_witness :
    (runCycle (okEnv 3 [sampleNWT]) (stateAt 1 0 10 0)).2.surfaced.length
      = min ((3 : Int) - 1).toNat 1 ∧
    (runCycle (okEnv 7 [sampleNWT]) (stateAt 0 0 10 0)).2.surfaced = [] ∧
    (runCycle (okEnv 7 [sampleNWT]) (stateAt 0 0 10 0)).2.countEvent = some 7 :=
  ⟨(delta_bounded_surfacing (okEnv 3 [sampleNWT]) (stateAt 1 0 10 0)
      "countBody" "notifBody" (countRespOf 3) (notifRespOf [sampleNWT])
      rfl (by decide) rfl rfl rfl rfl).1 (by decide),
   ((delta_bounded_surfacing (okEnv 7 [sampleNWT]) (stateAt 0 0 10 0)
      "countBody" "notifBody" (countRespOf 7) (notifRespOf [sampleNWT])
      rfl (by decide) rfl rfl rfl rfl).2 rfl).1,
   ((delta_bounded_surfacing (okEnv 7 [sampleNWT]) (stateAt 0 0 10 0)
      "countBody" "notifBody" (countRespOf 7) (notifRespOf [sampleNWT])
      rfl (by decide) rfl rfl rfl rfl).2 rfl).2 rfl⟩

/-- C2: the backoff delay starts at 10 s; when the error count exceeds the
threshold of 5 the cycle sleeps the current delay, doubles it capped at
300 s and zeroes the error count; the delay never decreases except by the
reset to the 10 s baseline on the third consecutive success; and while the
error count is at or below the threshold the iteration ends with the fixed
30 s steady cadence. -/
theorem backoff_discipline :
    initialPollState.backoff_seconds = 10 ∧
    (∀ (env : CycleEnv) (s : PollState),
      env.tokenPresent = true → s.error_count > 5 →
        (runCycle env s).2.sleepSeconds = s.backoff_seconds ∧
        (runCycle env s).2.backedOff = true ∧
        (runCycle env s).1.backoff_seconds = min (s.backoff_seconds * 2) 300 ∧
        (runCycle env s).1.error_count = 0) ∧
    (∀ (env : CycleEnv) (s : PollState),
      s.backoff_seconds ≤ 300 →
        s.backoff_seconds ≤ (runCycle env s).1.backoff_seconds ∨
          ((runCycle env s).1.backoff_seconds = 10 ∧
           (runCycle env s).1.consecutive_success = 0 ∧
           s.consecutive_success + 1 ≥ 3)) ∧
    (∀ (env : CycleEnv) (s : PollState),
      env.tokenPresent = true → s.error_count ≤ 5 →
        (runCycle env s).2.sleepSeconds = 30 ∧
        (runCycle env s).2.backedOff = false) := by
  refine ⟨rfl, ?_, ?_, ?_⟩
  · intro env s hTok hErr
    simp [runCycle, pollCycle, hTok, hErr]
  · intro env s hb
    by_cases hTok : env.tokenPresent = true
    · by_cases hErr : s.error_count > 5
      · left
        have hgoal : (runCycle env s).1.backoff_seconds
            = min (s.backoff_seconds * 2) 300 := by
          simp [runCycle, pollCycle, hTok, hErr]
        rw [hgoal]
        exact Nat.le_min.mpr ⟨by omega, hb⟩
      · rcases hc : env.countResult with e | cj
        · by_cases hm : strContains e noTokenMarker <;>
            left <;> simp [runCycle, pollCycle, hTok, hErr, hc, hm]
        · rcases hp : env.parseCount cj with _ | cr
          · left; simp [runCycle, pollCycle, hTok, hErr, hc, hp]
          · by_cases hcs : s.consecutive_success + 1 ≥ 3
            · right
              simp [runCycle, pollCycle, hTok, hErr, hc, hp, hcs]
            · left
              simp [runCycle, pollCycle, hTok, hErr, hc, hp, hcs]
    · left
      have hTok' : env.tokenPresent = false := by
        cases h : env.tokenPresent
        · rfl
        · exact absurd h hTok
      simp [runCycle, pollCycle, hTok']
  · intro env s hTok hEc
    have hEc' : ¬ s.error_count > 5 := by omega
    rcases hc : env.countResult with e | cj
    · by_cases hm : strContains e noTokenMarker <;>
        simp [runCycle, pollCycle, hTok, hEc', hc, hm]
    · rcases hp : env.parseCount cj with _ | cr <;>
        simp [runCycle, pollCycle, hTok, hEc', hc, hp]

/-- Witness for C2: with the error count at 6 and delay 40 s the cycle
sleeps 40 s, doubles to 80 s and zeroes the error count; below the
threshold the cadence is the steady 30 s; monotonicity at a concrete
state. -/
theorem backoff_discipline_witness :
    (runCycle (okEnv 3 []) (stateAt 1 6 40 0)).2.sleepSeconds = 40 ∧
    (runCycle (okEnv 3 []) (stateAt 1 6 40 0)).1.backoff_seconds
      = min (40 * 2) 300 ∧
    (runCycle (okEnv 3 []) (stateAt 1 6 40 0)).1.error_count = 0 ∧
    (runCycle (okEnv 3 []) (stateAt 1 2 40 0)).2.sleepSeconds = 30 ∧
    ((stateAt 1 2 40 0).backoff_seconds
        ≤ (runCycle (okEnv 3 []) (stateAt 1 2 40 0)).1.backoff_seconds ∨
      ((runCycle (okEnv 3 []) (stateAt 1 2 40 0)).1.backoff_seconds = 10 ∧
       (runCycle (okEnv 3 []) (stateAt 1 2 40 0)).1.consecutive_success = 0 ∧
       (stateAt 1 2 40 0).consecutive_success + 1 ≥ 3)) :=
  ⟨(backoff_discipline.2.1 (okEnv 3 []) (stateAt 1 6 40 0) rfl
      (by decide)).1,
   (backoff_discipline.2.1 (okEnv 3 []) (stateAt 1 6 40 0) rfl
      (by decide)).2.2.1,
   (backoff_discipline.2.1 (okEnv 3 []) (stateAt 1 6 40 0) rfl
      (by decide)).2.2.2,
   (backoff_discipline.2.2.2 (okEnv 3 []) (stateAt 1 2 40 0) rfl
      (by decide)).1,
   backoff_discipline.2.2.1 (okEnv 3 []) (stateAt 1 2 40 0) (by decide)⟩

/-- C3 counterexample: a cycle whose notification-list body fails to parse
(count fetched and parsed fine, `C = 2 > L = 1 > 0`) increments the error
count transiently (`preResetErrors = 1`) but completes with the error
count at 0 — not strictly greater than the 0 it started from. -/
theorem list_parse_failure_not_counted :
    (runCycle (listParseFailEnv 2) (stateAt 1 0 10 0)).2.preResetErrors = 1 ∧
    (runCycle (listParseFailEnv 2) (stateAt 1 0 10 0)).1.error_count = 0 ∧
    ¬ ((runCycle (listParseFailEnv 2) (stateAt 1 0 10 0)).1.error_count
        > (stateAt 1 0 10 0).error_count) := by
  refine ⟨rfl, rfl, ?_⟩
  decide

/-- C3 (amended): a malformed count-endpoint body increments the error
count, leaving it strictly greater after the cycle; a malformed
list-endpoint body increments it only transiently — the success path then
unconditionally resets the error count to 0. -/
theorem malformed_body_error_counting :
    (∀ (env : CycleEnv) (s : PollState) (cj : String),
      env.tokenPresent = true → s.error_count ≤ 5 →
      env.countResult = Except.ok cj → env.parseCount cj = none →
        (runCycle env s).1.error_count = s.error_count + 1) ∧
    (∀ (env : CycleEnv) (s : PollState) (cj nj : String)
        (cr : CountResponse),
      env.tokenPresent = true → s.error_count ≤ 5 →
      env.countResult = Except.ok cj → env.parseCount cj = some cr →
      cr.data.unread > s.last_count → s.last_count > 0 →
      env.notifResult = Except.ok nj → env.parseNotifs nj = none →
      env.emitCountOk = true →
        (runCycle env s).2.preResetErrors = s.error_count + 1 ∧
        (runCycle env s).1.error_count = 0) := by
  constructor
  · intro env s cj hTok hEc hc hp
    have hEc' : ¬ s.error_count > 5 := by omega
    simp [runCycle, pollCycle, hTok, hEc', hc, hp]
  · intro env s cj nj cr hTok hEc hc hp hgt hpos hn hnp hemit
    have hEc' : ¬ s.error_count > 5 := by omega
    have hcond : cr.data.unread > s.last_count ∧ s.last_count > 0 :=
      ⟨hgt, hpos⟩
    constructor <;>
      simp [runCycle, pollCycle, hTok, hEc', hc, hp, hcond, hn, hnp, hemit]
    split <;> rfl

/-- Witness for C3's amended theorem: a malformed count body takes the
error count from 0 to 1; a malformed list body leaves `preResetErrors = 1`
but a final error count of 0. -/
theorem malformed_body_error_counting_witness :
    (runCycle countParseFailEnv (stateAt 0 0 10 0)).1.error_count = 0 + 1 ∧
    (runCycle (listParseFailEnv 2) (stateAt 1 3 10 0)).2.preResetErrors
      = 3 + 1 ∧
    (runCycle (listParseFailEnv 2) (stateAt 1 3 10 0)).1.error_count = 0 :=
  ⟨malformed_body_error_counting.1 countParseFailEnv (stateAt 0 0 10 0)
      "countBody" rfl (by decide) rfl rfl,
   (malformed_body_error_counting.2 (listParseFailEnv 2) (stateAt 1 3 10 0)
      "countBody" "notifBody" (countRespOf 2) rfl (by decide) rfl rfl
      (by decide) (by decide) rfl rfl rfl).1,
   (malformed_body_error_counting.2 (listParseFailEnv 2) (stateAt 1 3 10 0)
      "countBody" "notifBody" (countRespOf 2) rfl (by decide) rfl rfl
      (by decide) (by decide) rfl rfl rfl).2⟩

/-- C4: a count fetch failing with the no-token (`Unauthenticated`) error
leaves the whole loop state — in particular the error count — unchanged
and proceeds to the next cycle after the steady 30 s sleep; any fetch
error that does increment the error count is one that does not carry the
no-token marker. -/
theorem unauthenticated_fetch_not_counted :
    (∀ (env : CycleEnv) (s : PollState),
      env.tokenPresent = true → s.error_count ≤ 5 →
      env.countResult = Except.error noTokenError →
        (runCycle env s).1 = s ∧ (runCycle env s).2.sleepSeconds = 30) ∧
    (∀ (env : CycleEnv) (s : PollState) (e : String),
      env.tokenPresent = true → s.error_count ≤ 5 →
      env.countResult = Except.error e →
      (runCycle env s).1.error_count ≠ s.error_count →
        strContains e noTokenMarker = false) := by
  constructor
  · intro env s hTok hEc hc
    have hEc' : ¬ s.error_count > 5 := by omega
    have hm : strContains noTokenError noTokenMarker = true := by decide
    constructor <;> simp [runCycle, pollCycle, hTok, hEc', hc, hm]
  · intro env s e hTok hEc hc hne
    have hEc' : ¬ s.error_count > 5 := by omega
    cases hm : strContains e noTokenMarker
    · rfl
    · exact absurd (by simp [runCycle, pollCycle, hTok, hEc', hc, hm]) hne

/-- Witness for C4: the no-token failure leaves the state
`stateAt 5 2 10 1` untouched. -/
theorem unauthenticated_fetch_not_counted_witness :
    (runCycle (fetchErrEnv noTokenError) (stateAt 5 2 10 1)).1
      = stateAt 5 2 10 1 ∧
    (runCycle (fetchErrEnv noTokenError) (stateAt 5 2 10 1)).2.sleepSeconds
      = 30 :=
  unauthenticated_fetch_not_counted.1 (fetchErrEnv noTokenError)
    (stateAt 5 2 10 1) rfl (by decide) rfl

/-- C9: after any cycle whose count fetch and parse succeed, the cursor is
unconditionally set to the fetched unread count and the error count is
reset to 0, whatever happened to the follow-up list fetch or parse — so
that window's notifications are never surfaced in a later cycle. -/
theorem count_success_resets_cursor_and_errors (env : CycleEnv)
    (s : PollState) (cj : String) (cr : CountResponse)
    (hTok : env.tokenPresent = true) (hEc : s.error_count ≤ 5)
    (hc : env.countResult = Except.ok cj)
    (hp : env.parseCount cj = some cr) :
    (runCycle env s).1.last_count = cr.data.unread ∧
    (runCycle env s).1.error_count = 0 := by
  have hEc' : ¬ s.error_count > 5 := by omega
  by_cases hcs : s.consecutive_success + 1 ≥ 3 <;>
    constructor <;> simp [runCycle, pollCycle, hTok, hEc', hc, hp, hcs]

/-- Witness for C9: in a cycle whose list body fails to parse, the cursor
still advances to 2 and the error count still ends at 0. -/
theorem count_success_resets_cursor_and_errors_witness :
    (runCycle (listParseFailEnv 2) (stateAt 1 4 10 0)).1.last_count = 2 ∧
    (runCycle (listParseFailEnv 2) (stateAt 1 4 10 0)).1.error_count = 0 :=
  count_success_resets_cursor_and_errors (listParseFailEnv 2)
    (stateAt 1 4 10 0) "countBody" (countRespOf 2) rfl (by decide) rfl rfl

end EM
